import Mathlib

/-!
# Verification of the open-telemetry demo services

A shallow embedding of the Go demo services in this repository: the manual
trace-context propagation over the custom `TraceID`/`SpanID` HTTP headers,
the span lifecycle of every handler, the trace-backend selection at startup,
and the shutdown path of the trace provider.

Trace identifiers (128-bit) and span identifiers (64-bit) are modelled as
natural numbers below `2^128` (resp. `2^64`); their wire format is the
lowercase fixed-width hexadecimal string produced by the OpenTelemetry
`TraceID.String`/`SpanID.String` methods, and parsing follows
`trace.TraceIDFromHex`/`trace.SpanIDFromHex` (length check, lowercase hex
digits only, rejection of the all-zero identifier, zero value returned on
any failure).
-/

/-- The lowercase hex digit character for a value `d < 16`, as produced by
Go's `hex.EncodeToString`. -/
def hexDigitChar (d : Nat) : Char :=
  if d < 10 then Char.ofNat (48 + d) else Char.ofNat (87 + d)

/-- The value of one hex digit character, accepting only `0-9` and lowercase
`a-f` exactly as the `decodeHex` helper behind `TraceIDFromHex` does
(uppercase digits are rejected). -/
def hexCharVal (c : Char) : Option Nat :=
  if 48 ≤ c.toNat ∧ c.toNat ≤ 57 then some (c.toNat - 48)
  else if 97 ≤ c.toNat ∧ c.toNat ≤ 102 then some (c.toNat - 87)
  else none

/-- The `k` base-16 digits of `v`, least significant first. -/
def natToHexRev : Nat → Nat → List Nat
  | 0, _ => []
  | k + 1, v => v % 16 :: natToHexRev k (v / 16)

/-- The fixed-width (`k` characters) lowercase hex encoding of `v`, most
significant digit first: the wire format of `TraceID.String` (`k = 32`) and
`SpanID.String` (`k = 16`). -/
def encodeHexDigits (k v : Nat) : List Char :=
  ((natToHexRev k v).reverse).map hexDigitChar

/-- Left-to-right accumulation of a hex digit string into its value;
fails on the first character that is not a lowercase hex digit. -/
def hexListVal : List Char → Nat → Option Nat
  | [], acc => some acc
  | c :: cs, acc =>
    match hexCharVal c with
    | none => none
    | some d => hexListVal cs (16 * acc + d)

/-- `trace.TraceIDFromHex`: requires exactly 32 lowercase hex characters and
a nonzero value; `none` models the error return (with the zero `TraceID`
value). -/
def TraceIDFromHex (h : String) : Option Nat :=
  if h.length = 32 then
    match hexListVal h.data 0 with
    | none => none
    | some v => if v = 0 then none else some v
  else none

/-- `trace.SpanIDFromHex`: requires exactly 16 lowercase hex characters and
a nonzero value. -/
def SpanIDFromHex (h : String) : Option Nat :=
  if h.length = 16 then
    match hexListVal h.data 0 with
    | none => none
    | some v => if v = 0 then none else some v
  else none

/-- `TraceID.String()`: 32 lowercase hex characters. -/
def traceIDString (t : Nat) : String := ⟨encodeHexDigits 32 t⟩

/-- `SpanID.String()`: 16 lowercase hex characters. -/
def spanIDString (s : Nat) : String := ⟨encodeHexDigits 16 s⟩

theorem hexCharVal_hexDigitChar {d : Nat} (hd : d < 16) :
    hexCharVal (hexDigitChar d) = some d := by
  interval_cases d <;> rfl

theorem natToHexRev_length (k v : Nat) : (natToHexRev k v).length = k := by
  induction k generalizing v with
  | zero => rfl
  | succ k ih => simp [natToHexRev, ih]

theorem encodeHexDigits_length (k v : Nat) : (encodeHexDigits k v).length = k := by
  simp [encodeHexDigits, natToHexRev_length]

theorem hexListVal_append (l₁ l₂ : List Char) (acc : Nat) :
    hexListVal (l₁ ++ l₂) acc =
      (hexListVal l₁ acc).bind (hexListVal l₂) := by
  induction l₁ generalizing acc with
  | nil => rfl
  | cons c cs ih =>
    simp only [List.cons_append, hexListVal]
    cases hexCharVal c with
    | none => rfl
    | some d => exact ih (16 * acc + d)

theorem hexListVal_encode (k : Nat) :
    ∀ v acc, v < 16 ^ k →
      hexListVal (encodeHexDigits k v) acc = some (acc * 16 ^ k + v) := by
  induction k with
  | zero =>
    intro v acc hv
    have hv0 : v = 0 := Nat.lt_one_iff.mp hv
    subst hv0
    simp [encodeHexDigits, natToHexRev, hexListVal]
  | succ k ih =>
    intro v acc hv
    have hdiv : v / 16 < 16 ^ k := by
      have h16 : 0 < 16 := by norm_num
      rw [Nat.div_lt_iff_lt_mul h16]
      calc v < 16 ^ (k + 1) := hv
        _ = 16 ^ k * 16 := by ring
    have hstep : encodeHexDigits (k + 1) v =
        encodeHexDigits k (v / 16) ++ [hexDigitChar (v % 16)] := by
      simp [encodeHexDigits, natToHexRev, List.reverse_cons]
    rw [hstep, hexListVal_append, ih (v / 16) acc hdiv, Option.some_bind]
    have hmod : v % 16 < 16 := Nat.mod_lt _ (by norm_num)
    simp only [hexListVal, hexCharVal_hexDigitChar hmod]
    congr 1
    have hdm : 16 * (v / 16) + v % 16 = v := Nat.div_add_mod v 16
    calc 16 * (acc * 16 ^ k + v / 16) + v % 16
        = acc * (16 ^ k * 16) + (16 * (v / 16) + v % 16) := by ring
      _ = acc * 16 ^ (k + 1) + v := by rw [hdm]; ring

theorem string_length_mk (l : List Char) : (String.mk l).length = l.length := rfl

/-- Round trip for trace identifiers: parsing the 32-character lowercase hex
serialization of a valid (nonzero, 128-bit) trace identifier recovers it. -/
theorem TraceIDFromHex_traceIDString {t : Nat} (h0 : 0 < t) (hlt : t < 2 ^ 128) :
    TraceIDFromHex (traceIDString t) = some t := by
  have hlt' : t < 16 ^ 32 := by norm_num at hlt ⊢; exact hlt
  have hlen : (traceIDString t).length = 32 := by
    rw [traceIDString, string_length_mk, encodeHexDigits_length]
  have hval : hexListVal (traceIDString t).data 0 = some t := by
    have := hexListVal_encode 32 t 0 hlt'
    simpa using this
  rw [TraceIDFromHex, if_pos hlen, hval]
  simp [Nat.pos_iff_ne_zero.mp h0]

/-- Round trip for span identifiers: parsing the 16-character lowercase hex
serialization of a valid (nonzero, 64-bit) span identifier recovers it. -/
theorem SpanIDFromHex_spanIDString {s : Nat} (h0 : 0 < s) (hlt : s < 2 ^ 64) :
    SpanIDFromHex (spanIDString s) = some s := by
  have hlt' : s < 16 ^ 16 := by norm_num at hlt ⊢; exact hlt
  have hlen : (spanIDString s).length = 16 := by
    rw [spanIDString, string_length_mk, encodeHexDigits_length]
  have hval : hexListVal (spanIDString s).data 0 = some s := by
    have := hexListVal_encode 16 s 0 hlt'
    simpa using this
  rw [SpanIDFromHex, if_pos hlen, hval]
  simp [Nat.pos_iff_ne_zero.mp h0]

/-! ## Data model: span contexts, spans, HTTP requests and responses -/

/-- An attribute value set on a span (`semconv` keys take string or int
values in this repository). -/
inductive AttrVal
  | str (s : String)
  | int (n : Int)
deriving DecidableEq

/-- The status recorded on a span via `span.SetStatus`. -/
inductive SpanStatus
  | unset
  | ok (msg : String)
  | error (msg : String)
deriving DecidableEq

/-- `trace.SpanContextConfig` as constructed by the receiving handlers:
trace identifier, span identifier, sampled flag, remote flag. -/
structure SpanContextCfg where
  traceID : Nat
  spanID : Nat
  sampled : Bool
  remote : Bool
deriving DecidableEq

/-- A span as mutated by a handler over its lifetime: its name, whether this
handler started it (`tracer.Start`) or merely obtained it from the request
context, the remote parent context it was started under (if any), the events
appended by `AddEvent` in order, the attributes set by `SetAttributes`, the
errors recorded by `RecordError`, the final status, and how many times
`End` was called on it by the time the handler exits. -/
structure Span where
  name : String
  startedByHandler : Bool
  parent : Option SpanContextCfg
  events : List String
  attrs : List (String × AttrVal)
  errorsRecorded : List String
  status : SpanStatus
  endCalls : Nat
deriving DecidableEq

/-- An HTTP response body as produced by the gin helpers used here:
`c.JSON(_, m)` with a map, `c.JSON(_, nil)`, `c.JSON(_, gin.H)` with a
single error key, or `c.String`. -/
inductive Body
  | jsonMap (entries : List (String × String))
  | jsonNull
  | jsonErrorObj (msg : String)
  | text (s : String)
deriving DecidableEq

/-- An HTTP response: status code and body. -/
structure HttpResponse where
  status : Nat
  body : Body
deriving DecidableEq

/-- The two custom propagation headers. `http.Header.Get` returns the empty
string when a header is absent, so an absent header is the empty string. -/
structure Headers where
  traceIDHeader : String
  spanIDHeader : String
deriving DecidableEq

/-- A request with both propagation headers absent. -/
def noHeaders : Headers := ⟨"", ""⟩

/-- The outcome of the one outbound HTTP call a handler makes:
`http.DefaultClient.Do` either fails with a transport error or yields a
response with some status code. -/
inductive DownstreamResult
  | transportError
  | response (status : Nat)
deriving DecidableEq

/-! ## Caller side: header injection (1_user-service `UserService`) -/

/-- `UserService` lines 146–158: read the active span's trace and span
identifiers and set them as the `TraceID` and `SpanID` headers of the
outbound request, serialized by `TraceID.String`/`SpanID.String`. -/
def userServiceOutboundHeaders (traceID spanID : Nat) : Headers :=
  ⟨traceIDString traceID, spanIDString spanID⟩

/-! ## Callee side: remote span context reconstruction -/

/-- The 10-line snippet shared by `AuthnHandler`, `AuthzHandler` and app2's
`HandlerLayer`: parse each header with `TraceIDFromHex`/`SpanIDFromHex`,
discard the error (keeping the zero value on failure), and build a
`SpanContextConfig` with `TraceFlags: FlagsSampled` and `Remote: true`. -/
def reconstructRemoteContext (h : Headers) : SpanContextCfg :=
  ⟨(TraceIDFromHex h.traceIDHeader).getD 0,
   (SpanIDFromHex h.spanIDHeader).getD 0,
   true, true⟩

/-! ## authn-service and authz-service handlers -/

/-- Everything observable about one `AuthnHandler` invocation. -/
structure AuthnOutput where
  remoteCtx : SpanContextCfg
  span : Span
  loggedTraceID : Nat
  loggedSpanID : Nat
  response : HttpResponse
deriving DecidableEq

/-- `AuthnHandler` (2_authn-service/main.go, identical in the unnamed
authn variant): reconstruct the remote context from the headers, start a
child span under it, decorate it, and answer `200` with a null JSON body.
The logged identifiers come from `SpanFromContext(ctx)`, i.e. from the
reconstructed remote context itself. -/
def AuthnHandler (h : Headers) : AuthnOutput :=
  let sc := reconstructRemoteContext h
  { remoteCtx := sc
  , span :=
    { name := "AuthnHandler", startedByHandler := true, parent := some sc
    , events := ["Got a request to verify the request in authn-service",
                 "Succefully verified the request in authn-service"]
    , attrs := [("http.method", .str "GET"), ("http.url", .str "/users"),
                ("service.name", .str "authn-service")]
    , errorsRecorded := [], status := .unset, endCalls := 1 }
  , loggedTraceID := sc.traceID
  , loggedSpanID := sc.spanID
  , response := ⟨200, .jsonNull⟩ }

/-- Everything observable about one `AuthzHandler` invocation. -/
structure AuthzOutput where
  remoteCtx : SpanContextCfg
  span : Span
  loggedTraceID : Nat
  loggedSpanID : Nat
  response : HttpResponse
deriving DecidableEq

/-- `AuthzHandler` (2_authz-service/main.go): same reconstruction snippet,
then a fixed-text `200` response. -/
def AuthzHandler (h : Headers) : AuthzOutput :=
  let sc := reconstructRemoteContext h
  { remoteCtx := sc
  , span :=
    { name := "AuthzHandler", startedByHandler := true, parent := some sc
    , events := ["handling the /verify request in authz-service",
                 "verified the request in authz-service"]
    , attrs := [("http.method", .str "GET"), ("service.name", .str "authz-service")]
    , errorsRecorded := [], status := .unset, endCalls := 1 }
  , loggedTraceID := sc.traceID
  , loggedSpanID := sc.spanID
  , response := ⟨200, .text "user verified successfully!"⟩ }

/-! ## 1_user-service: UserDatabase → UserService → UserHandler -/

instance {ε α : Type} [DecidableEq ε] [DecidableEq α] : DecidableEq (Except ε α) :=
  fun a b =>
  match a, b with
  | .error e, .error f =>
    if h : e = f then .isTrue (by rw [h]) else .isFalse (by simp [h])
  | .ok u, .ok v =>
    if h : u = v then .isTrue (by rw [h]) else .isFalse (by simp [h])
  | .error _, .ok _ => .isFalse (by simp)
  | .ok _, .error _ => .isFalse (by simp)

/-- Everything observable about one `UserDatabase` call
(1_user-service/main.go lines 120–136). -/
structure DbOutput where
  span : Span
  result : Except String (List (String × String))
deriving DecidableEq

/-- `UserDatabase`: starts a span, adds two events around a simulated
database delay, and unconditionally returns the fixed two-entry map with a
nil error. -/
def UserDatabase : DbOutput :=
  { span :=
    { name := "UserDatabase", startedByHandler := true, parent := none
    , events := ["Fetching user details from database",
                 "Successfully fetched user details from database"]
    , attrs := [], errorsRecorded := [], status := .unset, endCalls := 1 }
  , result := .ok [("user1", "hpe-user1"), ("user2", "hpe-user2")] }

/-- Everything observable about one `UserService` call. -/
structure ServiceOutput where
  span : Span
  dbSpans : List Span
  outboundHeaders : Headers
  attempts : Nat
  dbErrBranch : Bool
  result : Except String (List (String × String))
deriving DecidableEq

/-- `UserService` (1_user-service/main.go lines 139–187): start a span,
inject the current trace/span identifiers as headers, make exactly one
outbound call (`dres` is its outcome); on a transport error record the error
and an error status and return the error; on a non-200 response likewise
(with a 400 attribute); on 200 call `UserDatabase` and relay its error
branch (`dbErrBranch` marks the `if err != nil` branch after that call).
`traceID`/`spanID` are the identifiers the tracer assigned to this span's
context. The deferred `span.End` runs on every path (`endCalls = 1`). -/
def UserService (traceID spanID : Nat) (dres : DownstreamResult) : ServiceOutput :=
  let hdrs := userServiceOutboundHeaders traceID spanID
  let base : Span :=
    { name := "UserService", startedByHandler := true, parent := none
    , events := ["Calling authn service"]
    , attrs := [], errorsRecorded := [], status := .unset, endCalls := 1 }
  match dres with
  | .transportError =>
    { span :=
      { base with
        errorsRecorded := ["Failed to call authz service"],
        attrs := [("http.status_code", .int 500)],
        status := .error "Failed to call authz service" }
    , dbSpans := [], outboundHeaders := hdrs, attempts := 1
    , dbErrBranch := false, result := .error "Failed to call authz service" }
  | .response code =>
    if code ≠ 200 then
      { span :=
        { base with
          errorsRecorded := ["Invalid Request"],
          attrs := [("http.status_code", .int 400)],
          status := .error "Invalid Request" }
      , dbSpans := [], outboundHeaders := hdrs, attempts := 1
      , dbErrBranch := false, result := .error "Invalid Request" }
    else
      let db := UserDatabase
      let base2 :=
        { base with events :=
            base.events ++ ["Successfully verified the request from authn service"] }
      match db.result with
      | .error e =>
        { span :=
          { base2 with
            errorsRecorded := [e],
            attrs := [("http.status_code", .int 500)],
            status := .error e }
        , dbSpans := [db.span], outboundHeaders := hdrs, attempts := 1
        , dbErrBranch := true, result := .error e }
      | .ok m =>
        { span := base2, dbSpans := [db.span], outboundHeaders := hdrs
        , attempts := 1, dbErrBranch := false, result := .ok m }

/-- Everything observable about one `UserHandler` request. -/
structure HandlerOutput where
  span : Span
  serviceSpan : Span
  dbSpans : List Span
  attempts : Nat
  response : HttpResponse
deriving DecidableEq

/-- `UserHandler` (1_user-service/main.go lines 190–214): the entry handler.
It never reads the incoming request's headers (`_h` is unused, as in the
source, which starts its span from `context.Background()`); it calls
`UserService` and answers `500` with an error JSON object on any error,
otherwise `200` with the user map. -/
def UserHandler (_h : Headers) (svcTraceID svcSpanID : Nat)
    (dres : DownstreamResult) : HandlerOutput :=
  let base : Span :=
    { name := "UserHandler", startedByHandler := true, parent := none
    , events := ["Got a request to get users"]
    , attrs := [("http.method", .str "GET"), ("http.url", .str "/users"),
                ("service.name", .str "user-service")]
    , errorsRecorded := [], status := .unset, endCalls := 1 }
  let svc := UserService svcTraceID svcSpanID dres
  match svc.result with
  | .error e =>
    { span :=
      { base with
        errorsRecorded := [e],
        attrs := base.attrs ++ [("http.status_code", .int 500)] }
    , serviceSpan := svc.span, dbSpans := svc.dbSpans, attempts := svc.attempts
    , response := ⟨500, .jsonErrorObj "Error calling authn service"⟩ }
  | .ok m =>
    { span :=
      { base with
        events := base.events ++
          ["Successfully verfied the request from authn service",
           "user details fetched"],
        status := .ok "User details fetched successfully" }
    , serviceSpan := svc.span, dbSpans := svc.dbSpans, attempts := svc.attempts
    , response := ⟨200, .jsonMap m⟩ }

/-! ## app2: backend selection, DatabaseLayer → ServiceLayer → HandlerLayer -/

/-- The fixed enumeration of trace backends wired in app2/main.go. -/
inductive Backend
  | jaeger
  | newrelic
  | opsramp
deriving DecidableEq

/-- What app2's `main` does before serving: exit with a code, or select a
backend and proceed. -/
inductive StartupOutcome
  | exited (code : Nat)
  | selected (b : Backend)
deriving DecidableEq

/-- The `switch TraceProvider` statement in app2's `main` (lines 118–127):
three recognized names, everything else defaults to the jaeger
(local-collector) provider. -/
def selectTraceProvider : String → Backend
  | "newrelic" => .newrelic
  | "jaeger" => .jaeger
  | "opsramp" => .opsramp
  | _ => .jaeger

/-- app2's `main` startup (lines 102–128): `args` is `os.Args` (program name
first). With fewer than two elements it logs an error and calls
`os.Exit(1)`; otherwise it selects the backend named by the first
argument. -/
def app2Startup (args : List String) : StartupOutcome :=
  if args.length < 2 then .exited 1
  else .selected (selectTraceProvider (args.getD 1 ""))

/-- `DatabaseLayer` (app2/main.go lines 143–149): no span, fixed response,
nil error, for every input. -/
def DatabaseLayer : Except String String :=
  .ok "Successfully fetched records from database"

/-- Everything observable about one `ServiceLayer` call. -/
structure ServiceLayerOutput where
  span : Span
  dbErrBranch : Bool
  result : Except String String
deriving DecidableEq

/-- `ServiceLayer` (app2/main.go lines 151–169): start a span, add events,
call `DatabaseLayer`, and relay its (never-taken) error branch. -/
def ServiceLayer : ServiceLayerOutput :=
  let base : Span :=
    { name := "App2-ServiceLayer", startedByHandler := true, parent := none
    , events := ["Got a request in service layer", "Calling database layer"]
    , attrs := [], errorsRecorded := [], status := .unset, endCalls := 1 }
  match DatabaseLayer with
  | .error e =>
    ⟨{ base with
       errorsRecorded := [e],
       attrs := [("http.status_code", .int 500)],
       status := .error e },
     true, .error e⟩
  | .ok r => ⟨base, false, .ok r⟩

/-- Everything observable about one `HandlerLayer` request. -/
structure HandlerLayerOutput where
  remoteCtx : SpanContextCfg
  span : Span
  serviceSpan : Span
  loggedTraceID : Nat
  serviceErrLogged : Bool
  response : HttpResponse
deriving DecidableEq

/-- `HandlerLayer` (app2/main.go lines 171–210): reconstruct the remote
context from the headers, start a child span, call `ServiceLayer`; an error
from it is only logged (`serviceErrLogged`), never changes the response,
which is always `200` with a null JSON body. -/
def HandlerLayer (h : Headers) : HandlerLayerOutput :=
  let sc := reconstructRemoteContext h
  let svc := ServiceLayer
  { remoteCtx := sc
  , span :=
    { name := "App2-HandlerLayer", startedByHandler := true, parent := some sc
    , events := ["Got a request in app2 service", "Calling service layer"]
    , attrs := [("http.method", .str "GET"), ("service.name", .str "App2")]
    , errorsRecorded := [], status := .unset, endCalls := 1 }
  , serviceSpan := svc.span
  , loggedTraceID := sc.traceID
  , serviceErrLogged := match svc.result with | .error _ => true | .ok _ => false
  , response := ⟨200, .jsonNull⟩ }

/-! ## golang/main.go: UserDatabase with real DB calls and fatal paths -/

/-- The environment one `UserDatabase` call in golang/main.go meets: which
database operations fail, and the rows the `SELECT` returns. Only
`sql.Open`, `BeginTx` and `Commit` failures are fatal (`log.Fatal`, which
exits the process and skips deferred calls); `Exec`, `Query` and `Scan`
errors are merely logged and do not change control flow. -/
structure GoDbEnv where
  openFails : Bool
  beginTxFails : Bool
  commitFails : Bool
  beginTx2Fails : Bool
  commit2Fails : Bool
  rows : List (String × String)
deriving DecidableEq

/-- How a `UserDatabase` call in golang/main.go ends: a `log.Fatal` process
exit, or a normal return with the scanned user data. -/
inductive GoDbOutcome
  | fatalExit
  | ok (userData : List (String × String))
deriving DecidableEq

/-- Everything observable about one golang `UserDatabase` call: the spans it
started (empty if it exited before `tracer.Start`) and its outcome. -/
structure GoDbOutput where
  spans : List Span
  outcome : GoDbOutcome
deriving DecidableEq

/-- `UserDatabase` (golang/main.go lines 112–173): open the DB (fatal on
error, before any span exists), start the `DB-Transactions` span, then run
two transactions whose `BeginTx`/`Commit` failures are fatal — `log.Fatal`
calls `os.Exit`, so the deferred `span.End` does NOT run on those paths
(`endCalls = 0`); on the normal path the span is ended once. -/
def goUserDatabase (env : GoDbEnv) : GoDbOutput :=
  if env.openFails then ⟨[], .fatalExit⟩
  else
    let base : Span :=
      { name := "DB-Transactions", startedByHandler := true, parent := none
      , events := [], attrs := [], errorsRecorded := [], status := .unset
      , endCalls := 0 }
    if env.beginTxFails then ⟨[base], .fatalExit⟩
    else if env.commitFails then ⟨[base], .fatalExit⟩
    else if env.beginTx2Fails then ⟨[base], .fatalExit⟩
    else if env.commit2Fails then ⟨[base], .fatalExit⟩
    else ⟨[{ base with events := ["user fetch done"], endCalls := 1 }],
          .ok env.rows⟩

/-! ## unnamed part_003: HelloHandler -/

/-- Everything observable about one `HelloHandler` request (unnamed
part_003 lines 36–55). -/
structure HelloOutput where
  span : Span
  response : HttpResponse
deriving DecidableEq

/-- `HelloHandler` (unnamed part_003): it does NOT start a span — it takes
`trace.SpanFromContext(c)` (a no-op span, since nothing put one in the
request context) and nevertheless defers `span.End` on it, so on every exit
path it ends once a span it never started. On a transport error it answers
`500` with an error text, otherwise `200` (the downstream status code is
never inspected). -/
def HelloHandler (dres : DownstreamResult) : HelloOutput :=
  let base : Span :=
    { name := "", startedByHandler := false, parent := none
    , events := ["handling the request"], attrs := [], errorsRecorded := []
    , status := .unset, endCalls := 1 }
  match dres with
  | .transportError =>
    ⟨{ base with errorsRecorded := ["transport error"] },
     ⟨500, .text "Error calling Service A"⟩⟩
  | .response _ => ⟨base, ⟨200, .text "Hello, World!"⟩⟩

/-! ## shutdownTraceProvider -/

/-- The observable shape of one `shutdownTraceProvider` call: the timeout
bound (seconds) wrapped around the context, and whether `cancel` is
deferred. -/
structure ShutdownCall where
  timeoutSeconds : Nat
  cancelDeferred : Bool
deriving DecidableEq

/-- How the shutdown path ends. -/
inductive ShutdownOutcome
  | completed
  | panicked (msg : String)
deriving DecidableEq

/-- `shutdownTraceProvider` (identical in 1_user-service/main.go and
app2/main.go, lines 58–68): wrap the context in a 5-second timeout, defer
`cancel`, call `tp.Shutdown` (which flushes buffered spans and releases the
exporter); a non-nil error from it is propagated with `panic`. `flushErr`
is the error `tp.Shutdown` returns, `none` for nil. -/
def shutdownTraceProvider (flushErr : Option String) :
    ShutdownCall × ShutdownOutcome :=
  (⟨5, true⟩,
   match flushErr with
   | none => .completed
   | some e => .panicked e)

/-- The spans of one user-service request, over the whole chain
`UserHandler` → `UserService` → (`UserDatabase` when reached). -/
def userChainSpans (h : Headers) (t s : Nat) (dres : DownstreamResult) :
    List Span :=
  let o := UserHandler h t s dres
  o.span :: o.serviceSpan :: o.dbSpans

/-! ## Claim theorems -/

/-- C1: for every valid pair of hex-encodable identifiers (nonzero 128-bit
trace ID, nonzero 64-bit span ID) that the caller (`UserService`) serializes
into the `TraceID`/`SpanID` request headers, the downstream handler
(`AuthnHandler`) reconstructs — via `TraceIDFromHex` into the remote span
context — a trace identifier equal to the caller's input trace identifier:
serialization followed by parsing is a round trip. -/
theorem C1_header_roundtrip (t s : Nat)
    (ht0 : 0 < t) (ht : t < 2 ^ 128) (hs0 : 0 < s) (hs : s < 2 ^ 64) :
    (AuthnHandler (userServiceOutboundHeaders t s)).remoteCtx.traceID = t ∧
    (AuthnHandler (userServiceOutboundHeaders t s)).remoteCtx.spanID = s ∧
    (AuthnHandler (userServiceOutboundHeaders t s)).loggedTraceID = t := by
  have h1 : TraceIDFromHex (traceIDString t) = some t :=
    TraceIDFromHex_traceIDString ht0 ht
  have h2 : SpanIDFromHex (spanIDString s) = some s :=
    SpanIDFromHex_spanIDString hs0 hs
  refine ⟨?_, ?_, ?_⟩ <;>
    simp [AuthnHandler, reconstructRemoteContext, userServiceOutboundHeaders,
          h1, h2]

/-- Witness for C1 at the concrete identifiers 1 and 1. -/
theorem C1_header_roundtrip_witness :
    (AuthnHandler (userServiceOutboundHeaders 1 1)).remoteCtx.traceID = 1 ∧
    (AuthnHandler (userServiceOutboundHeaders 1 1)).remoteCtx.spanID = 1 ∧
    (AuthnHandler (userServiceOutboundHeaders 1 1)).loggedTraceID = 1 :=
  C1_header_roundtrip 1 1 (by decide) (by norm_num) (by decide) (by norm_num)

/-- C2: whenever `UserService`'s one downstream call fails (transport error
or non-200 response), the failure is recorded on its span (an error is
recorded and the status is set to error), exactly one call was attempted
(no retry), and `UserHandler` answers its own caller with a 500 response
carrying an error JSON body; the handler returns normally, so the process
keeps serving. In app2, `HandlerLayer`'s inner call (`ServiceLayer`) never
fails, so its (response-preserving) error branch is never taken. -/
theorem C2_downstream_failure_handling (t s : Nat) (dres : DownstreamResult)
    (hfail : dres ≠ .response 200) :
    (∃ msg, (UserService t s dres).span.status = .error msg) ∧
    (UserService t s dres).span.errorsRecorded ≠ [] ∧
    (UserService t s dres).attempts = 1 ∧
    (∀ h, (UserHandler h t s dres).response =
      ⟨500, .jsonErrorObj "Error calling authn service"⟩) ∧
    (∀ h, (HandlerLayer h).serviceErrLogged = false) := by
  cases dres with
  | transportError =>
    refine ⟨⟨"Failed to call authz service", rfl⟩, by simp [UserService],
           rfl, fun h => rfl, fun h => rfl⟩
  | response code =>
    have hc : code ≠ 200 := by
      intro he
      exact hfail (by rw [he])
    refine ⟨⟨"Invalid Request", ?_⟩, ?_, ?_, fun h => ?_, fun h => rfl⟩
    · simp [UserService, hc]
    · simp [UserService, hc]
    · simp [UserService, hc]
    · simp [UserHandler, UserService, hc]

/-- Witness for C2 at a concrete failing downstream call (transport
error). -/
theorem C2_downstream_failure_handling_witness :
    (∃ msg, (UserService 1 1 .transportError).span.status = .error msg) ∧
    (UserService 1 1 .transportError).span.errorsRecorded ≠ [] ∧
    (UserService 1 1 .transportError).attempts = 1 ∧
    (∀ h, (UserHandler h 1 1 .transportError).response =
      ⟨500, .jsonErrorObj "Error calling authn service"⟩) ∧
    (∀ h, (HandlerLayer h).serviceErrLogged = false) :=
  C2_downstream_failure_handling 1 1 .transportError (by decide)

/-- C3 counterexample: with the backend argument missing (`os.Args` holding
only the program name), app2's startup exits with code 1 instead of
defaulting to the jaeger (local-collector) configuration, contradicting the
claim that a missing argument falls back to the default without error. -/
theorem C3_missing_arg_counterexample :
    app2Startup ["app2"] = .exited 1 ∧
    app2Startup ["app2"] ≠ .selected .jaeger := by
  exact ⟨rfl, by decide⟩

/-- C3 (amended): at startup exactly one backend is chosen from the fixed
enumeration; an argument value outside the three recognized names falls
back to the jaeger (local-collector) configuration without error; but when
the argument is MISSING the process exits with code 1 rather than
defaulting. -/
theorem C3_backend_selection_amended :
    (∀ arg : String, arg ≠ "newrelic" → arg ≠ "jaeger" → arg ≠ "opsramp" →
        selectTraceProvider arg = .jaeger) ∧
    (∀ args : List String, 2 ≤ args.length →
        app2Startup args = .selected (selectTraceProvider (args.getD 1 ""))) ∧
    (∀ args : List String, args.length < 2 → app2Startup args = .exited 1) := by
  refine ⟨?_, ?_, ?_⟩
  · intro arg h1 h2 h3
    unfold selectTraceProvider
    split
    · exact absurd rfl h1
    · exact absurd rfl h2
    · exact absurd rfl h3
    · rfl
  · intro args hlen
    unfold app2Startup
    rw [if_neg (by omega)]
  · intro args hlen
    simp [app2Startup, hlen]

/-- Witness for C3 (amended): an unrecognized backend name selects
jaeger. -/
theorem C3_backend_selection_amended_witness :
    app2Startup ["app2", "zipkin"] = .selected .jaeger := by
  have h := C3_backend_selection_amended.2.1 ["app2", "zipkin"] (by norm_num)
  rw [h]
  decide

/-- C4: for every request whose propagation headers fail to parse (missing,
wrong length, or not lowercase hex), the receiving handlers neither fail
nor reject: the parse error is discarded, the zero-value identifier enters
the reconstructed remote span context, and the handler completes normally
with its fixed 200 response. Stated for both `AuthzHandler` and
`AuthnHandler` (the unnamed authn variant is the same code). -/
theorem C4_malformed_headers_degraded (h : Headers) :
    (AuthzHandler h).response = ⟨200, .text "user verified successfully!"⟩ ∧
    (AuthnHandler h).response = ⟨200, .jsonNull⟩ ∧
    (TraceIDFromHex h.traceIDHeader = none →
      (AuthzHandler h).remoteCtx.traceID = 0 ∧
      (AuthnHandler h).remoteCtx.traceID = 0) ∧
    (SpanIDFromHex h.spanIDHeader = none →
      (AuthzHandler h).remoteCtx.spanID = 0 ∧
      (AuthnHandler h).remoteCtx.spanID = 0) := by
  refine ⟨rfl, rfl, fun htr => ?_, fun hsp => ?_⟩
  · constructor <;>
      simp [AuthzHandler, AuthnHandler, reconstructRemoteContext, htr]
  · constructor <;>
      simp [AuthzHandler, AuthnHandler, reconstructRemoteContext, hsp]

/-- Witness for C4 at a concretely malformed pair of headers. -/
theorem C4_malformed_headers_degraded_witness :
    (AuthzHandler ⟨"xyz", "not-hex"⟩).response =
      ⟨200, .text "user verified successfully!"⟩ ∧
    (AuthzHandler ⟨"xyz", "not-hex"⟩).remoteCtx.traceID = 0 ∧
    (AuthnHandler ⟨"xyz", "not-hex"⟩).remoteCtx.spanID = 0 := by
  have h := C4_malformed_headers_degraded ⟨"xyz", "not-hex"⟩
  exact ⟨h.1, (h.2.2.1 (by decide)).1, (h.2.2.2 (by decide)).2⟩

/-- C5: when both propagation headers are absent (empty strings, as
`Header.Get` yields), the downstream handlers build a remote parent context
whose trace identifier is the all-zero value and still start and end their
span under it, answering 200: the trace is silently broken rather than
failing. Stated for `AuthnHandler` and app2's `HandlerLayer`. -/
theorem C5_absent_headers_zero_trace :
    (AuthnHandler noHeaders).remoteCtx = ⟨0, 0, true, true⟩ ∧
    (AuthnHandler noHeaders).span.parent = some ⟨0, 0, true, true⟩ ∧
    (AuthnHandler noHeaders).loggedTraceID = 0 ∧
    (AuthnHandler noHeaders).response.status = 200 ∧
    (HandlerLayer noHeaders).remoteCtx = ⟨0, 0, true, true⟩ ∧
    (HandlerLayer noHeaders).span.parent = some ⟨0, 0, true, true⟩ ∧
    (HandlerLayer noHeaders).loggedTraceID = 0 ∧
    (HandlerLayer noHeaders).response.status = 200 := by
  decide

/-- C6 counterexample: part_003's `HelloHandler` ends (via its deferred
`End`) a span it did not start — the span it takes from the request
context — and golang's `UserDatabase`, on a fatal `BeginTx` failure
(`log.Fatal` exits the process, skipping the deferred `End`), leaves the
span it started with zero `End` calls. Both contradict the claim that every
started span is ended exactly once and that no span is ended that the
handler did not start. -/
theorem C6_span_lifecycle_counterexample :
    (HelloHandler (.response 200)).span.startedByHandler = false ∧
    (HelloHandler (.response 200)).span.endCalls = 1 ∧
    ((goUserDatabase ⟨false, true, false, false, false, []⟩).spans.map
        Span.startedByHandler) = [true] ∧
    ((goUserDatabase ⟨false, true, false, false, false, []⟩).spans.map
        Span.endCalls) = [0] := by
  decide

/-- C6 (amended): every span started by one of the handlers is ended
exactly once on every exit path the handler itself completes — over the
whole user-service chain for every downstream outcome, and for the authn,
authz and app2 handlers for every request — with the two deviations the
code forces: part_003's `HelloHandler` ends once, on every exit path, a
span it did not start; and golang's `UserDatabase` keeps the guarantee only
when none of its fatal database steps fails (on a fatal path the process
exits with the started span never ended). -/
theorem C6_span_lifecycle_amended :
    (∀ h t s dres, ∀ sp ∈ userChainSpans h t s dres,
        sp.startedByHandler = true ∧ sp.endCalls = 1) ∧
    (∀ h, (AuthnHandler h).span.startedByHandler = true ∧
        (AuthnHandler h).span.endCalls = 1) ∧
    (∀ h, (AuthzHandler h).span.startedByHandler = true ∧
        (AuthzHandler h).span.endCalls = 1) ∧
    (∀ h, ((HandlerLayer h).span.startedByHandler = true ∧
           (HandlerLayer h).span.endCalls = 1) ∧
          ((HandlerLayer h).serviceSpan.startedByHandler = true ∧
           (HandlerLayer h).serviceSpan.endCalls = 1)) ∧
    (∀ env : GoDbEnv, env.openFails = false → env.beginTxFails = false →
        env.commitFails = false → env.beginTx2Fails = false →
        env.commit2Fails = false →
        ∀ sp ∈ (goUserDatabase env).spans,
          sp.startedByHandler = true ∧ sp.endCalls = 1) ∧
    (∀ dres, (HelloHandler dres).span.startedByHandler = false ∧
        (HelloHandler dres).span.endCalls = 1) := by
  refine ⟨?_, fun h => ⟨rfl, rfl⟩, fun h => ⟨rfl, rfl⟩,
          fun h => ⟨⟨rfl, rfl⟩, ⟨rfl, rfl⟩⟩, ?_, ?_⟩
  · intro h t s dres sp hsp
    cases dres with
    | transportError =>
      simp [userChainSpans, UserHandler, UserService] at hsp
      rcases hsp with rfl | rfl <;> exact ⟨rfl, rfl⟩
    | response code =>
      by_cases hcode : code = 200
      · subst hcode
        simp [userChainSpans, UserHandler, UserService, UserDatabase] at hsp
        rcases hsp with rfl | rfl | rfl <;> exact ⟨rfl, rfl⟩
      · simp [userChainSpans, UserHandler, UserService, UserDatabase,
              hcode] at hsp
        rcases hsp with rfl | rfl <;> exact ⟨rfl, rfl⟩
  · intro env ho hb hc hb2 hc2 sp hsp
    simp only [goUserDatabase, ho, hb, hc, hb2, hc2, Bool.false_eq_true,
               if_false, List.mem_cons, List.not_mem_nil, or_false] at hsp
    subst hsp
    exact ⟨rfl, rfl⟩
  · intro dres
    cases dres <;> exact ⟨rfl, rfl⟩

/-- Witness for C6 (amended): the entry handler's own span in a concrete
run is started by it and ended exactly once. -/
theorem C6_span_lifecycle_amended_witness :
    (UserHandler noHeaders 1 1 .transportError).span.startedByHandler = true ∧
    (UserHandler noHeaders 1 1 .transportError).span.endCalls = 1 :=
  C6_span_lifecycle_amended.1 noHeaders 1 1 .transportError
    (UserHandler noHeaders 1 1 .transportError).span (by decide)

/-- C7: for any entry-handler request (the handler never reads the incoming
headers, so "no trace headers" included) whose downstream call is reachable
and answers 200, `UserHandler` responds 200 with the fixed two-entry JSON
payload mapping user1 and user2 to their hard-coded values. -/
theorem C7_success_fixed_payload (h : Headers) (t s : Nat) :
    (UserHandler h t s (.response 200)).response =
      ⟨200, .jsonMap [("user1", "hpe-user1"), ("user2", "hpe-user2")]⟩ :=
  rfl

/-- C8: `shutdownTraceProvider` wraps the flush in a 5-second timeout
context with a deferred `cancel` (the same `tp.Shutdown` call flushes and
then releases the exporter); a flush error makes the shutdown path panic
with that error, and an error-free flush completes; the request handlers
are separate pure functions of their own inputs, so serving before
shutdown is untouched by this path. -/
theorem C8_shutdown_flush_bounded :
    (∀ e, (shutdownTraceProvider e).1 = ⟨5, true⟩) ∧
    (∀ msg, (shutdownTraceProvider (some msg)).2 = .panicked msg) ∧
    (shutdownTraceProvider none).2 = .completed :=
  ⟨fun e => by cases e <;> rfl, fun msg => rfl, rfl⟩

/-- C9: for every GET /verify request — whatever the two propagation
headers hold — `AuthnHandler` answers 200 with a null JSON body and
`AuthzHandler` answers 200 with the fixed verification text; neither
handler inspects anything that could produce a non-200 response. -/
theorem C9_verify_always_200 (h : Headers) :
    (AuthnHandler h).response = ⟨200, .jsonNull⟩ ∧
    (AuthzHandler h).response = ⟨200, .text "user verified successfully!"⟩ :=
  ⟨rfl, rfl⟩

/-- C10: `UserDatabase` (1_user-service) and app2's `DatabaseLayer` return
their fixed result with a nil error unconditionally, so the error branch
guarding each caller's database call (`dbErrBranch` in `UserService` and in
`ServiceLayer`) is never taken, for any identifiers and any downstream
outcome. -/
theorem C10_db_error_branch_unreachable :
    UserDatabase.result = .ok [("user1", "hpe-user1"), ("user2", "hpe-user2")] ∧
    DatabaseLayer = .ok "Successfully fetched records from database" ∧
    (∀ t s dres, (UserService t s dres).dbErrBranch = false) ∧
    ServiceLayer.dbErrBranch = false := by
  refine ⟨rfl, rfl, ?_, rfl⟩
  intro t s dres
  cases dres with
  | transportError => rfl
  | response code =>
    by_cases hcode : code = 200
    · subst hcode
      rfl
    · simp [UserService, hcode]
